import Mathlib

/-!
Shallow embedding of the winston logging pipeline configured in this
repository: the npm severity model, the environment-dependent logger floor,
the console and daily-rotate file transports, the logger-wide format chain
(timestamp, errors, align, json or prettyPrint) with the development console
renderer (colorize + printf), the morgan access-log bridge, the retention
configuration of the rotating files, and the exception/rejection handlers.
Theorems below settle the specification claims against these definitions.
-/

namespace WLog

/-- Log severity levels of winston's npm level table, which the logger in the
source uses (the configuration passes the level names error, warn, info,
http, debug to its transports, and the server code also calls verbose). -/
inductive Level
  | error
  | warn
  | info
  | http
  | verbose
  | debug
  | silly
  deriving DecidableEq, Fintype

/-- Priorities of winston's npm levels: error 0, warn 1, info 2, http 3,
verbose 4, debug 5, silly 6 (lower number = more severe). -/
def Level.priority : Level → Nat
  | .error => 0
  | .warn => 1
  | .info => 2
  | .http => 3
  | .verbose => 4
  | .debug => 5
  | .silly => 6

/-- Winston admission rule: an event at level l is admitted by a configured
minimum level m iff the event's priority is at most m's priority. -/
def accepts (l m : Level) : Bool :=
  l.priority ≤ m.priority

/-- The five level names the specification's Severity Model enumerates. -/
def fiveLevels : List Level :=
  [.error, .warn, .info, .http, .debug]

/-- Written from the spec's words, for refinement comparison with
Level.priority: the spec's five-level table error(0) < warn(1) < info(2) <
http(3) < debug(4); levels outside the spec's set get an arbitrary value
above the table. -/
def specPriority : Level → Nat
  | .error => 0
  | .warn => 1
  | .info => 2
  | .http => 3
  | .debug => 4
  | .verbose => 100
  | .silly => 101

/-- Logger floor of the envs-based configuration variant:
logLevel = NODE_ENV === 'production' ? 'info' : 'debug'. -/
def logLevelMain (production : Bool) : Level :=
  if production then .info else .debug

/-- Logger floor of the second configuration variant in the repository:
logLevel = process.env.NODE_ENV === 'production' ? 'warn' : 'debug'. -/
def logLevelVariant (production : Bool) : Level :=
  if production then .warn else .debug

/-- The logger-wide floor check winston performs before handing an event to
any transport: the event is processed iff the floor admits its level. -/
def processed (floor l : Level) : Bool :=
  accepts l floor

/-- One configured output destination (a winston transport) as far as level
filtering is concerned: its name and its minimum level. -/
structure TransportCfg where
  name : String
  minLevel : Level
  deriving DecidableEq

/-- The console transport of the source: level 'info' with json format in
production, level 'debug' with colorize + printf in development. -/
def consoleTransport (production : Bool) : TransportCfg :=
  if production then { name := "console", minLevel := .info }
  else { name := "console", minLevel := .debug }

/-- The four daily-rotate file transports, in the declaration order of the
transports array of the source: application (info), errors (error),
warns (warn), debugs (debug). -/
def fileTransports : List TransportCfg :=
  [ { name := "application", minLevel := .info }
  , { name := "errors", minLevel := .error }
  , { name := "warns", minLevel := .warn }
  , { name := "debugs", minLevel := .debug } ]

/-- The full transport list of the logger: console first, then the file
transports in declaration order. -/
def transports (production : Bool) : List TransportCfg :=
  consoleTransport production :: fileTransports

/-- Configuration of one DailyRotateFile as built by createTransport in the
source: filename pattern, date pattern, zipped archive, max size 30m, and
maxFiles expressed in days (the retention window). -/
structure RotateCfg where
  filename : String
  datePattern : String
  zippedArchive : Bool
  maxSizeMB : Nat
  maxAgeDays : Nat
  level : Level
  deriving DecidableEq

/-- createTransport from the source: DailyRotateFile with
filename logs/(name)-%DATE%.log, datePattern YYYY-MM-DD, zippedArchive true,
maxSize 30m, maxFiles (n)d, and the given level. -/
def createTransport (filename : String) (level : Level) (maxFiles : Nat) : RotateCfg :=
  { filename := "logs/" ++ filename ++ "-%DATE%.log"
  , datePattern := "YYYY-MM-DD"
  , zippedArchive := true
  , maxSizeMB := 30
  , maxAgeDays := maxFiles
  , level := level }

/-- Transport for general logs: createTransport('application', 'info', 14). -/
def transport : RotateCfg := createTransport "application" .info 14

/-- Transport for warning logs: createTransport('warns', 'warn', 21). -/
def warnTransport : RotateCfg := createTransport "warns" .warn 21

/-- Transport for debug logs: createTransport('debugs', 'debug', 21). -/
def debugTransport : RotateCfg := createTransport "debugs" .debug 21

/-- Transport for error logs: createTransport('errors', 'error', 30). -/
def errorTransport : RotateCfg := createTransport "errors" .error 30

/-- Modelled from the spec: the retention sweep run at rotation time by the
daily-rotate library (not part of this repository) keeps exactly the
artifacts whose age in days does not exceed maxAgeDays, deleting the rest.
Ages are given in days; the result lists the retained ages. -/
def retentionSweep (maxAgeDays : Nat) (ages : List Nat) : List Nat :=
  ages.filter (fun a => a ≤ maxAgeDays)

/-- The whole logger configuration the claims need: the floor, the transport
list, and the two fixed fault-capture file names from exceptionHandlers and
rejectionHandlers. -/
structure LoggerCfg where
  floor : Level
  transportList : List TransportCfg
  exceptionFile : String
  rejectionFile : String
  deriving DecidableEq

/-- The logger of the envs-based variant, as createLogger builds it. -/
def loggerConfig (production : Bool) : LoggerCfg :=
  { floor := logLevelMain production
  , transportList := transports production
  , exceptionFile := "logs/exceptions.log"
  , rejectionFile := "logs/rejections.log" }

/-- The logger of the second variant, differing only in its floor. -/
def loggerConfigVariant (production : Bool) : LoggerCfg :=
  { floor := logLevelVariant production
  , transportList := transports production
  , exceptionFile := "logs/exceptions.log"
  , rejectionFile := "logs/rejections.log" }

/-- Outcome of one event at one transport. -/
inductive WriteOutcome
  | written
  | droppedWriteFailure
  | rejectedByLevel
  deriving DecidableEq

/-- Modelled from the spec for the library's dispatch loop: a producer call
first passes the logger floor; if admitted, the event goes to every
transport, each deciding admission by its own minimum level; a destination
whose write fails drops only that one write. The function is total: a call
always returns an outcome for every transport and never fails to the
caller. failing names the transports whose destination write fails. -/
def dispatchEvent (cfg : LoggerCfg) (l : Level) (failing : String → Bool) :
    List (String × WriteOutcome) :=
  if processed cfg.floor l then
    cfg.transportList.map (fun t =>
      (t.name,
        if accepts l t.minLevel then
          if failing t.name then WriteOutcome.droppedWriteFailure
          else WriteOutcome.written
        else WriteOutcome.rejectedByLevel))
  else
    cfg.transportList.map (fun t => (t.name, WriteOutcome.rejectedByLevel))

/-- A raw message handed to a producer call: plain text, or an Error object
carrying a message and a stack trace, as in log.error(new Error(...)). -/
inductive MsgInput
  | text (s : String)
  | errObj (msg stack : String)
  deriving DecidableEq

/-- The textual message of a raw input; for an Error object, its message. -/
def MsgInput.textOf : MsgInput → String
  | .text s => s
  | .errObj m _ => m

/-- The info record winston's format stages transform: level, message,
optional timestamp, optional stack (set by format.errors), and the constant
service metadata ('user-service' in the source's defaultMeta). -/
structure LogInfo where
  level : Level
  msg : MsgInput
  timestamp : Option String
  stack : Option String
  service : String
  deriving DecidableEq

/-- The info record a producer call constructs before formatting. -/
def mkInfo (l : Level) (m : MsgInput) : LogInfo :=
  { level := l, msg := m, timestamp := none, stack := none
  , service := "user-service" }

/-- The named format stages that appear in the source's format.combine. -/
inductive Stage
  | timestampStage
  | errorsStage
  | alignStage
  | jsonStage
  | prettyStage
  deriving DecidableEq

/-- The logger-wide format chain of the source, in its written order:
format.combine(timestamp(...), errors(\x7bstack: true\x7d), align(),
NODE_ENV === 'production' ? json() : prettyPrint()). The align() call is
unconditional; only the final rendering stage depends on the environment. -/
def loggerFormatChain (production : Bool) : List Stage :=
  [ .timestampStage, .errorsStage, .alignStage
  , if production then .jsonStage else .prettyStage ]

/-- Modelled from the spec for the library's stage semantics: timestamp
stamps the formatted clock value; errors expands an Error-object message
into its message plus a stack field; align prepends a tab to the message;
json and prettyPrint leave the info record itself unchanged (they only
choose the final rendering). -/
def applyStage (now : String) (i : LogInfo) : Stage → LogInfo
  | .timestampStage => { i with timestamp := some now }
  | .errorsStage =>
      match i.msg with
      | .text _ => i
      | .errObj m s => { i with msg := .text m, stack := some s }
  | .alignStage => { i with msg := .text ("\t" ++ i.msg.textOf) }
  | .jsonStage => i
  | .prettyStage => i

/-- Running the logger format chain over an info record. -/
def applyChain (production : Bool) (now : String) (i : LogInfo) : LogInfo :=
  (loggerFormatChain production).foldl (applyStage now) i

/-- The level name as winston prints it. -/
def Level.label : Level → String
  | .error => "error"
  | .warn => "warn"
  | .info => "info"
  | .http => "http"
  | .verbose => "verbose"
  | .debug => "debug"
  | .silly => "silly"

/-- Modelled from the spec: colorize(\x7ball: true\x7d) wraps the whole
rendered line in a terminal color keyed by the level. -/
def colorOf : Level → String
  | .error => "\x1b[31m"
  | .warn => "\x1b[33m"
  | .info => "\x1b[32m"
  | .http => "\x1b[35m"
  | .verbose => "\x1b[36m"
  | .debug => "\x1b[34m"
  | .silly => "\x1b[90m"

/-- The development console printf of the source:
(timestamp) [(level)]: (message). -/
def printfLine (i : LogInfo) : String :=
  i.timestamp.getD "" ++ " [" ++ i.level.label ++ "]: " ++ i.msg.textOf

/-- The development console transport format: colorize then printf. -/
def devConsoleRender (i : LogInfo) : String :=
  colorOf i.level ++ printfLine i ++ "\x1b[39m"

/-- One key/value pair of the json rendering. -/
def jsonField (k v : String) : String :=
  "\"" ++ k ++ "\":\"" ++ v ++ "\""

/-- The json rendering used for production console output and file sinks:
all fields of the record, service metadata included, stack when present. -/
def jsonRender (i : LogInfo) : String :=
  "\x7b" ++ jsonField "level" i.level.label
    ++ "," ++ jsonField "message" i.msg.textOf
    ++ "," ++ jsonField "timestamp" (i.timestamp.getD "")
    ++ "," ++ jsonField "service" i.service
    ++ (match i.stack with
        | some s => "," ++ jsonField "stack" s
        | none => "")
    ++ "\x7d"

/-- End-to-end formatting of one event: run the logger chain, then render
for the environment's console (json in production, colorized printf line in
development). -/
def formatOutput (production : Bool) (now : String) (i : LogInfo) : String :=
  if production then jsonRender (applyChain production now i)
  else devConsoleRender (applyChain production now i)

/-- Formatting the same event twice in a row, as the idempotence property
exercises it: both passes read the same immutable event value. -/
def formatTwice (production : Bool) (now : String) (i : LogInfo) :
    String × String :=
  (formatOutput production now i, formatOutput production now i)

/-- The message text after the errors stage resolved an Error object. -/
def resolvedMsg : MsgInput → String
  | .text s => s
  | .errObj m _ => m

/-- The stack field after the errors stage resolved an Error object. -/
def resolvedStack : MsgInput → Option String → Option String
  | .text _, st => st
  | .errObj _ s, _ => some s

/-- The kind of process-level fault winston's handlers capture. -/
inductive FaultKind
  | uncaught
  | rejection
  deriving DecidableEq

/-- The record a fault-capture handler appends: the destination file and the
fault's message and stack trace. -/
structure FaultRecord where
  file : String
  message : String
  stack : String
  deriving DecidableEq

/-- Modelled from the spec: winston's exceptionHandlers and
rejectionHandlers convert an uncaught error or an unhandled rejection into
a record carrying message and stack and append it to their fixed-name file
transport, without consulting the logger's level floor. The file names come
from the source: logs/exceptions.log and logs/rejections.log. -/
def captureFault (cfg : LoggerCfg) (k : FaultKind) (message stack : String) :
    FaultRecord :=
  match k with
  | .uncaught => { file := cfg.exceptionFile, message := message, stack := stack }
  | .rejection => { file := cfg.rejectionFile, message := message, stack := stack }

/-- A whitespace character as the trim in the bridge treats it. -/
def isWs (c : Char) : Bool :=
  c == ' ' || c == '\t' || c == '\n' || c == '\r'

/-- The JavaScript String.prototype.trim the bridge calls: remove leading
and trailing whitespace, leaving the interior untouched. -/
def jsTrim (s : String) : String :=
  String.mk (((s.data.dropWhile isWs).reverse.dropWhile isWs).reverse)

/-- The morgan stream bridge of the server source:
write: (message) => log.http(message.trim()). -/
def morganStreamWrite (message : String) : Level × String :=
  (Level.http, jsTrim message)

/-- Effect of the full logger chain on any info record, in either
environment: the timestamp is stamped, an Error-object message is expanded
into its message plus a stack field, and the align stage prepends a tab to
the message. -/
theorem applyChain_eq (production : Bool) (now : String) (i : LogInfo) :
    applyChain production now i =
      { level := i.level
      , msg := .text ("\t" ++ resolvedMsg i.msg)
      , timestamp := some now
      , stack := resolvedStack i.msg i.stack
      , service := i.service } := by
  obtain ⟨lvl, m, ts, st, sv⟩ := i
  cases production <;> cases m <;> rfl

/-- C1: counterexample. The repository's second logger variant sets the
production floor to warn, so an info-level event is not processed at all in
production there, contrary to the claim that in production every event at
info or higher priority is processed. -/
theorem C1_counterexample :
    logLevelVariant true = Level.warn ∧
    processed (logLevelVariant true) Level.info = false := by decide

/-- C1 amended: under the envs-based configuration the production floor is
info, so in production exactly the events whose priority is at most info's
are processed, and in non-production every dispatchable level up to debug
is processed; under the second observed variant the production floor is
warn, which also drops info and http; in either configuration an event the
floor rejects reaches no transport at all, so the process-wide floor acts
before any per-transport filtering. -/
theorem C1_amended :
    (∀ l : Level, processed (logLevelMain true) l
        = decide (l.priority ≤ Level.info.priority)) ∧
    (∀ l : Level, l.priority ≤ Level.debug.priority →
        processed (logLevelMain false) l = true) ∧
    (∀ l : Level, processed (logLevelVariant true) l
        = decide (l.priority ≤ Level.warn.priority)) ∧
    (∀ (cfg : LoggerCfg) (l : Level) (failing : String → Bool),
        processed cfg.floor l = false →
        dispatchEvent cfg l failing
          = cfg.transportList.map
              (fun t => (t.name, WriteOutcome.rejectedByLevel))) := by
  refine ⟨by decide, by decide, by decide, ?_⟩
  intro cfg l failing h
  simp [dispatchEvent, h]

/-- C1 amended, witnessed: debug is processed in non-production, and a
debug event in production reaches no transport. -/
theorem C1_amended_witness :
    processed (logLevelMain false) Level.debug = true ∧
    dispatchEvent (loggerConfig true) Level.debug (fun _ => false)
      = (loggerConfig true).transportList.map
          (fun t => (t.name, WriteOutcome.rejectedByLevel)) :=
  ⟨C1_amended.2.1 Level.debug (by decide),
   C1_amended.2.2.2 (loggerConfig true) Level.debug (fun _ => false) (by decide)⟩

/-- C2: on the five levels the spec enumerates, a transport with minimum
level L2 admits an event at level L1 exactly when the spec's five-level
priority of L1 is at most that of L2 (the implemented npm order agrees
with the spec's order on these levels), and in particular a transport with
minimum level warn admits error and warn and rejects info, http and
debug. -/
theorem C2_admission :
    (∀ l1 l2 : Level, l1 ∈ fiveLevels → l2 ∈ fiveLevels →
        (accepts l1 l2 = true ↔ specPriority l1 ≤ specPriority l2)) ∧
    accepts Level.error Level.warn = true ∧
    accepts Level.warn Level.warn = true ∧
    accepts Level.info Level.warn = false ∧
    accepts Level.http Level.warn = false ∧
    accepts Level.debug Level.warn = false := by decide

/-- C2, witnessed at error and warn. -/
theorem C2_admission_witness :
    accepts Level.error Level.warn = true ↔
      specPriority Level.error ≤ specPriority Level.warn :=
  C2_admission.1 Level.error Level.warn (by decide) (by decide)

/-- C3: counterexample. The align stage sits unconditionally in the logger
chain, so it is applied in production too, and on a concrete production
event the formatted message carries the alignment tab. -/
theorem C3_counterexample :
    Stage.alignStage ∈ loggerFormatChain true ∧
    (applyChain true "2025-01-01 00:00:00"
        (mkInfo Level.info (MsgInput.text "hello"))).msg
      = MsgInput.text ("\t" ++ "hello") := by decide

/-- C3 amended: the chain applies its stages in the fixed order timestamp,
then error-detail expansion, then alignment, then terminal rendering, with
the alignment stage applied in both environments (not only in
development); only the final rendering stage depends on the environment,
and the non-production console renders the colorized single line
(timestamp) [(level)]: (message). -/
theorem C3_amended :
    (∀ production : Bool,
        loggerFormatChain production
          = [ Stage.timestampStage, Stage.errorsStage, Stage.alignStage
            , if production then Stage.jsonStage else Stage.prettyStage ]) ∧
    (∀ (production : Bool) (now : String) (i : LogInfo),
        applyChain production now i =
          { level := i.level
          , msg := .text ("\t" ++ resolvedMsg i.msg)
          , timestamp := some now
          , stack := resolvedStack i.msg i.stack
          , service := i.service }) ∧
    (∀ (now s : String) (lvl : Level),
        devConsoleRender (applyChain false now (mkInfo lvl (MsgInput.text s)))
          = colorOf lvl
              ++ (now ++ " [" ++ lvl.label ++ "]: " ++ ("\t" ++ s))
              ++ "\x1b[39m") :=
  ⟨fun _ => rfl, applyChain_eq, fun _ _ _ => rfl⟩

/-- C4: counterexample. The bridge trims the access-log line before
forwarding it, so a line with a trailing newline is not forwarded
verbatim. -/
theorem C4_counterexample :
    morganStreamWrite "GET / 200 3.2 ms\n" = (Level.http, "GET / 200 3.2 ms") ∧
    "GET / 200 3.2 ms" ≠ "GET / 200 3.2 ms\n" := by decide

/-- C4 amended: the bridge forwards every completed request's access-log
line as a single http-level message whose text is the line with leading
and trailing whitespace trimmed off; a line with no surrounding whitespace
is forwarded verbatim. -/
theorem C4_amended :
    (∀ message : String,
        morganStreamWrite message = (Level.http, jsTrim message)) ∧
    (∀ message : String, jsTrim message = message →
        morganStreamWrite message = (Level.http, message)) := by
  refine ⟨fun _ => rfl, ?_⟩
  intro m h
  simp [morganStreamWrite, h]

/-- C4 amended, witnessed on a line without surrounding whitespace. -/
theorem C4_amended_witness :
    morganStreamWrite "GET / 200 3.2 ms" = (Level.http, "GET / 200 3.2 ms") :=
  C4_amended.2 "GET / 200 3.2 ms" (by decide)

/-- C5: formatting the same event twice yields identical output in every
environment; the chain computes from the immutable event value alone, so
the two passes of formatTwice agree. -/
theorem C5_idempotent :
    ∀ (production : Bool) (now : String) (i : LogInfo),
      (formatTwice production now i).1 = (formatTwice production now i).2 :=
  fun _ _ _ => rfl

/-- C6: the four rotating families carry the claimed independent retention
windows (application 14 days, warns 21, debugs 21, errors 30), and the
retention sweep keeps exactly the artifacts whose age does not exceed the
family's window: an artifact survives the sweep iff it was present and not
older than maxAgeDays, so exactly the older ones are deleted. -/
theorem C6_retention :
    transport.maxAgeDays = 14 ∧
    warnTransport.maxAgeDays = 21 ∧
    debugTransport.maxAgeDays = 21 ∧
    errorTransport.maxAgeDays = 30 ∧
    (∀ (maxAge a : Nat) (ages : List Nat),
        a ∈ retentionSweep maxAge ages ↔ a ∈ ages ∧ a ≤ maxAge) := by
  refine ⟨rfl, rfl, rfl, rfl, ?_⟩
  intro maxAge a ages
  simp [retentionSweep, List.mem_filter]

/-- C7: in both environments an uncaught error and an unhandled rejection
are converted to records carrying the fault's message and stack trace and
appended to the fixed-name files logs/exceptions.log and
logs/rejections.log; the capture path never consults the floor, so its
result is identical under the two configuration variants' floors. -/
theorem C7_faultCapture :
    ∀ (production : Bool) (m s : String),
      captureFault (loggerConfig production) .uncaught m s
        = { file := "logs/exceptions.log", message := m, stack := s } ∧
      captureFault (loggerConfig production) .rejection m s
        = { file := "logs/rejections.log", message := m, stack := s } ∧
      (∀ k : FaultKind,
          captureFault (loggerConfig production) k m s
            = captureFault (loggerConfigVariant production) k m s) := by
  intro p m s
  refine ⟨rfl, rfl, ?_⟩
  intro k
  cases k <;> rfl

/-- C8: a producer call always yields an outcome for every configured
transport (the dispatch is a total function, so the caller never observes
a failure), and the outcome one transport receives depends only on its own
destination's failure: changing which other transports fail leaves it
unchanged. -/
theorem C8_isolation :
    (∀ (cfg : LoggerCfg) (l : Level) (failing : String → Bool),
        (dispatchEvent cfg l failing).length = cfg.transportList.length) ∧
    (∀ (cfg : LoggerCfg) (l : Level) (f g : String → Bool) (i : Nat)
        (t : TransportCfg),
        cfg.transportList[i]? = some t →
        f t.name = g t.name →
        (dispatchEvent cfg l f)[i]? = (dispatchEvent cfg l g)[i]?) := by
  constructor
  · intro cfg l failing
    cases hp : processed cfg.floor l <;> simp [dispatchEvent, hp]
  · intro cfg l f g i t ht hfg
    cases hp : processed cfg.floor l <;>
      simp [dispatchEvent, hp, List.getElem?_map, ht, hfg]

/-- C8, witnessed: with the errors destination failing, the application
transport's outcome is the same as with no destination failing. -/
theorem C8_isolation_witness :
    (dispatchEvent (loggerConfig false) Level.info
        (fun n => n == "errors"))[1]?
      = (dispatchEvent (loggerConfig false) Level.info
        (fun _ => false))[1]? :=
  C8_isolation.2 (loggerConfig false) Level.info (fun n => n == "errors")
    (fun _ => false) 1 { name := "application", minLevel := Level.info }
    (by decide) (by decide)

/-- C9: calling the error entry point with an Error object succeeds, and
the formatted record carries the error's message (behind the alignment
tab) and its stack trace, in both environments. -/
theorem C9_errorObject :
    ∀ (production : Bool) (now m s : String),
      (applyChain production now
          (mkInfo Level.error (MsgInput.errObj m s))).stack = some s ∧
      (applyChain production now
          (mkInfo Level.error (MsgInput.errObj m s))).msg
        = MsgInput.text ("\t" ++ m) ∧
      (applyChain production now
          (mkInfo Level.error (MsgInput.errObj m s))).level = Level.error := by
  intro p now m s
  cases p <;> exact ⟨rfl, rfl, rfl⟩

/-- C10: the implemented level order places verbose strictly between http
and debug, and a verbose call in production reaches no transport under
either configuration variant's floor (info or warn). -/
theorem C10_verbose :
    Level.http.priority < Level.verbose.priority ∧
    Level.verbose.priority < Level.debug.priority ∧
    processed (logLevelMain true) Level.verbose = false ∧
    processed (logLevelVariant true) Level.verbose = false ∧
    (∀ failing : String → Bool,
        dispatchEvent (loggerConfig true) Level.verbose failing
          = (loggerConfig true).transportList.map
              (fun t => (t.name, WriteOutcome.rejectedByLevel))) ∧
    (∀ failing : String → Bool,
        dispatchEvent (loggerConfigVariant true) Level.verbose failing
          = (loggerConfigVariant true).transportList.map
              (fun t => (t.name, WriteOutcome.rejectedByLevel))) := by
  exact ⟨by decide, by decide, by decide, by decide,
    fun _ => rfl, fun _ => rfl⟩

end WLog
